import Mathlib

/-!
Verification development for the cash-flow valuation core of the QuantLib
repository slice: `ql/cashflows/equitycashflow.cpp`,
`ql/cashflows/zeroinflationcashflow.cpp`, and `ql/time/calendars/target.cpp`.

Dates are modelled as serial numbers (`ℤ`), real values as `ℝ`, QuantLib
`Handle<T>` as `Option T` (an empty handle is `none`), and fallible
computations (`QL_REQUIRE` / `QL_FAIL`) as `Except String` carrying the
source error message.  Term-structure evaluation uses continuously
compounded zero rates, matching the source's own assumption (the quanto
term structure is a ZeroYieldStructure and its implementation assumes all
curves share one day-count/time convention).
-/

namespace QuantLib

/-- Day-count conventions appearing in the sources. `Actual365Fixed` is the
convention hard-coded for the substituted flat dividend curve in
`equitycashflow.cpp`; the others exist so that the day count of a curve is
not forced to be `Actual365Fixed`. -/
inductive DayCounter where
  | actual365Fixed
  | actual360
  | thirty360
deriving DecidableEq

/-- A yield term structure: a reference date (serial day), a day counter,
and a continuously compounded zero-rate function of time. -/
structure YieldTermStructure where
  refDate : ℤ
  dayCount : DayCounter
  zeroRate : ℝ → ℝ

/-- Discount factor of a yield term structure at serial date `d`:
`exp(-z(t)·t)` with `t` the date's time coordinate. -/
noncomputable def YieldTermStructure.discount (ts : YieldTermStructure) (d : ℤ) : ℝ :=
  Real.exp (-(ts.zeroRate (d : ℝ) * (d : ℝ)))

/-- Modelled from the spec: `FlatForward(0, NullCalendar(), SimpleQuote(0.0),
Actual365Fixed())` (flatforward.hpp is not under src/) — the "flat zero-yield
curve" of spec section 4.5 step 2, with the `Actual365Fixed` day counter that
`configureDividendHandle` passes in `equitycashflow.cpp` line 39. -/
def flatForwardZero : YieldTermStructure :=
  { refDate := 0, dayCount := .actual365Fixed, zeroRate := fun _ => 0 }

/-- Helper `configureDividendHandle` from `equitycashflow.cpp` lines 34-43: an empty
dividend handle is replaced by the flat zero-yield curve; a non-empty handle
is returned unchanged.  The C++ function returns a (provably non-empty)
handle; here we return the held curve directly. -/
def configureDividendHandle (dividendHandle : Option YieldTermStructure) : YieldTermStructure :=
  match dividendHandle with
  | none => flatForwardZero
  | some ts => ts

/-- A Black volatility term structure: reference date plus a volatility
function of (time, strike). -/
structure BlackVolTermStructure where
  refDate : ℤ
  blackVol : ℝ → ℝ → ℝ

/-- Modelled from the spec: `QuantoTermStructure`
(quantotermstructure.hpp, not under src/), spec section 4.5 step 3: a derived
curve combining the dividend curve, the quanto-currency discount curve
(`riskFreeTS`), the index's own interest-rate curve (`foreignRiskFreeTS`),
equity volatility at `strike`, FX volatility at the ATM level, and the
correlation value.  Its zero rate is the dividend zero rate plus the
quanto-currency zero rate minus the foreign zero rate plus the quanto drift
correction `correlation · equityVol · fxVol` (spec glossary: "Quanto
adjustment: a drift correction ... driven by equity/FX volatility and their
correlation"). -/
def QuantoTermStructure (dividendTS riskFreeTS foreignRiskFreeTS : YieldTermStructure)
    (equityVol : BlackVolTermStructure) (strike : ℝ) (fxVol : BlackVolTermStructure)
    (exchRateATMlevel : ℝ) (correlation : ℝ) : YieldTermStructure :=
  { refDate := dividendTS.refDate
    dayCount := dividendTS.dayCount
    zeroRate := fun t =>
      dividendTS.zeroRate t + riskFreeTS.zeroRate t - foreignRiskFreeTS.zeroRate t
        + correlation * equityVol.blackVol t strike * fxVol.blackVol t exchRateATMlevel }

/-- An equity index: spot quote handle, interest-rate curve handle, dividend
curve handle, the index's "today", and the shared historical-fixing store
(spec section 3, "Index"). -/
structure EquityIndex where
  spot : Option ℝ
  interest : Option YieldTermStructure
  dividend : Option YieldTermStructure
  today : ℤ
  pastFixings : ℤ → Option ℝ

/-- Modelled from the spec: `EquityIndex::forecastFixing` (equityindex.cpp is
not under src/) — "otherwise forecasts from its associated curve" (spec
section 3): the forward `spot · D_div(d) / D_int(d)` (or `spot / D_int(d)`
with no dividend curve), failing when the interest curve or the spot handle
is missing. -/
noncomputable def EquityIndex.forecastFixing (idx : EquityIndex) (d : ℤ) : Except String ℝ :=
  match idx.interest with
  | none => .error "null interest rate term structure set to this instance of the index"
  | some ir =>
    match idx.spot with
    | none => .error "null spot handle set to this instance of the index"
    | some s =>
      match idx.dividend with
      | some dv => .ok (s * dv.discount d / ir.discount d)
      | none => .ok (s / ir.discount d)

/-- Modelled from the spec: `EquityIndex::fixing` — "returns historical value
if the date is at/before the index's today, otherwise forecasts from its
associated curve" (spec section 3); a missing historical fixing is an
error. -/
noncomputable def EquityIndex.fixing (idx : EquityIndex) (d : ℤ) : Except String ℝ :=
  if d ≤ idx.today then
    match idx.pastFixings d with
    | some v => .ok v
    | none => .error "Missing fixing for the index"
  else
    idx.forecastFixing d

/-- Modelled from the spec: `EquityIndex::clone` — "produces a new Index
instance sharing the same historical fixings but bound to different term
structures" (spec section 3): new curves and spot, same fixing store and
today. -/
def EquityIndex.clone (idx : EquityIndex) (interest dividend : Option YieldTermStructure)
    (spot : Option ℝ) : EquityIndex :=
  { spot := spot, interest := interest, dividend := dividend,
    today := idx.today, pastFixings := idx.pastFixings }

/-- The quanto pricer's own state (`equitycashflow.cpp` lines 87-100): the
four market-data handles.  `id` stands for the C++ object identity
(shared-pointer address), used by observer registration. -/
structure EquityQuantoCashFlowPricer where
  id : ℕ
  quantoCurrencyTermStructure : Option YieldTermStructure
  equityVolatility : Option BlackVolTermStructure
  fxVolatility : Option BlackVolTermStructure
  correlation : Option ℝ

/-- An `EquityCashFlow` (`equitycashflow.cpp` lines 57-63): the
`IndexedCashFlow` data (notional, index, base/fixing/payment dates,
growth-only flag) plus the optional pricer.  `observed` is the set of
observable identities this cash flow is registered with and `calculated` the
lazy-object validity flag (false = stale). -/
structure EquityCashFlow where
  notional : ℝ
  index : EquityIndex
  baseDate : ℤ
  fixingDate : ℤ
  paymentDate : ℤ
  growthOnly : Bool
  pricer : Option EquityQuantoCashFlowPricer := none
  observed : Finset ℕ := ∅
  calculated : Bool := true

/-- The pricer's fields after a successful `initialize`
(`equitycashflow.cpp` lines 103-129): the handles plus `index_`,
`baseDate_`, `fixingDate_`, `growthOnlyPayoff_`. -/
structure PricerState where
  quantoCurrencyTermStructure : Option YieldTermStructure
  equityVolatility : Option BlackVolTermStructure
  fxVolatility : Option BlackVolTermStructure
  correlation : Option ℝ
  index : EquityIndex
  baseDate : ℤ
  fixingDate : ℤ
  growthOnlyPayoff : Bool

/-- Source method `EquityQuantoCashFlowPricer::initialize` (`equitycashflow.cpp` lines
103-129).  The dynamic cast to `EquityIndex` always succeeds in this
embedding because `EquityCashFlow` stores an `EquityIndex`, as the C++
constructor's parameter type guarantees.  The checks follow the source
order: date range, the four handle-emptiness checks, then the common
reference date. -/
def EquityQuantoCashFlowPricer.initialize (p : EquityQuantoCashFlowPricer)
    (cashFlow : EquityCashFlow) : Except String PricerState :=
  if cashFlow.fixingDate < cashFlow.baseDate then
    .error "Fixing date cannot fall before base date."
  else
    match p.quantoCurrencyTermStructure with
    | none => .error "Quanto currency term structure handle cannot be empty."
    | some qc =>
      match p.equityVolatility with
      | none => .error "Equity volatility term structure handle cannot be empty."
      | some ev =>
        match p.fxVolatility with
        | none => .error "FX volatility term structure handle cannot be empty."
        | some fv =>
          match p.correlation with
          | none => .error "Correlation handle cannot be empty."
          | some _ =>
            if qc.refDate = ev.refDate ∧ ev.refDate = fv.refDate then
              .ok { quantoCurrencyTermStructure := p.quantoCurrencyTermStructure
                    equityVolatility := p.equityVolatility
                    fxVolatility := p.fxVolatility
                    correlation := p.correlation
                    index := cashFlow.index
                    baseDate := cashFlow.baseDate
                    fixingDate := cashFlow.fixingDate
                    growthOnlyPayoff := cashFlow.growthOnly }
            else
              .error "Quanto currency term structure, equity and FX volatility need to have the same reference date."

/-- Source method `EquityQuantoCashFlowPricer::price` (`equitycashflow.cpp` lines
132-156): strike from the original index at the fixing date, the
quanto-adjusted curve, the clone rebound to (quanto currency, adjusted
curve, same spot), then the fixing ratio.  Handle dereferences that the C++
performs lazily inside curve evaluation are done up front here. -/
noncomputable def EquityQuantoCashFlowPricer.price (s : PricerState) : Except String ℝ :=
  match s.index.fixing s.fixingDate with
  | .error e => .error e
  | .ok strike =>
    let dividendHandle := configureDividendHandle s.index.dividend
    match s.quantoCurrencyTermStructure, s.equityVolatility, s.fxVolatility,
          s.correlation, s.index.interest with
    | some qc, some ev, some fv, some corr, some ir =>
      let quantoTermStructure := QuantoTermStructure dividendHandle qc ir ev strike fv 1 corr
      let quantoIndex := s.index.clone (some qc) (some quantoTermStructure) s.index.spot
      match quantoIndex.fixing s.baseDate with
      | .error e => .error e
      | .ok I0 =>
        match quantoIndex.fixing s.fixingDate with
        | .error e => .error e
        | .ok I1 => .ok (if s.growthOnlyPayoff then I1 / I0 - 1 else I1 / I0)
    | _, _, _, _, _ => .error "empty Handle cannot be dereferenced"

/-- Modelled from the spec: `IndexedCashFlow::amount` (indexedcashflow.cpp is
not under src/) — spec section 4.4 and the end-to-end scenario of section 8:
`notional * (growthOnly ? I1/I0 - 1 : I1/I0)` with `I0` the base-date fixing
and `I1` the fixing-date fixing. -/
noncomputable def EquityCashFlow.indexedAmount (cf : EquityCashFlow) : Except String ℝ :=
  match cf.index.fixing cf.baseDate with
  | .error e => .error e
  | .ok i0 =>
    match cf.index.fixing cf.fixingDate with
    | .error e => .error e
    | .ok i1 => .ok (cf.notional * (if cf.growthOnly then i1 / i0 - 1 else i1 / i0))

/-- Source method `EquityCashFlow::amount` (`equitycashflow.cpp` lines 78-84): without a
pricer, the `IndexedCashFlow` computation; with a pricer,
`pricer->initialize(*this)` then `notional() * pricer->price()`. -/
noncomputable def EquityCashFlow.amount (cf : EquityCashFlow) : Except String ℝ :=
  match cf.pricer with
  | none => cf.indexedAmount
  | some p =>
    match EquityQuantoCashFlowPricer.initialize p cf with
    | .error e => .error e
    | .ok s =>
      match EquityQuantoCashFlowPricer.price s with
      | .error e => .error e
      | .ok pr => .ok (cf.notional * pr)

/-- Source method `EquityCashFlow::setPricer` (`equitycashflow.cpp` lines 66-75):
unregister from the previous pricer if any, store the new one, register with
it if non-null, then `update()` (which clears the lazy-object validity
flag). -/
def EquityCashFlow.setPricer (cf : EquityCashFlow)
    (pricer : Option EquityQuantoCashFlowPricer) : EquityCashFlow :=
  let cf1 := match cf.pricer with
    | some old => { cf with observed := cf.observed.erase old.id }
    | none => cf
  let cf2 := { cf1 with pricer := pricer }
  let cf3 := match pricer with
    | some p => { cf2 with observed := insert p.id cf2.observed }
    | none => cf2
  { cf3 with calculated := false }

/-- Spec-side description of the quanto price, written from the claim: strike
is the original index's fixing at the fixing date; the adjusted curve is
built from the dividend curve, the quanto-currency curve, the index's own
interest-rate curve, the equity volatility at strike, the FX volatility and
the correlation value; the index is cloned with its domestic curve replaced
by the quanto-currency curve, its forecast curve replaced by the adjusted
curve and the same spot; the result is `I1/I0 - 1` if growth-only and
`I1/I0` otherwise, with `I0`/`I1` the clone's fixings at the base/fixing
date. -/
noncomputable def specQuantoPrice (s : PricerState) (qc : YieldTermStructure)
    (ev fv : BlackVolTermStructure) (corr : ℝ) (ir : YieldTermStructure) : Except String ℝ :=
  match s.index.fixing s.fixingDate with
  | .error e => .error e
  | .ok strike =>
    let adjusted := QuantoTermStructure (configureDividendHandle s.index.dividend)
      qc ir ev strike fv 1 corr
    let quantoIndex := s.index.clone (some qc) (some adjusted) s.index.spot
    match quantoIndex.fixing s.baseDate, quantoIndex.fixing s.fixingDate with
    | .ok I0, .ok I1 => .ok (if s.growthOnlyPayoff then I1 / I0 - 1 else I1 / I0)
    | .error e, _ => .error e
    | _, .error e => .error e

namespace CPI

/-- Modelled from the spec: the CPI interpolation kinds used by
`laggedFixing` (spec section 4.6): "flat" and "linear". -/
inductive InterpolationType where
  | flat
  | linear
deriving DecidableEq

end CPI

/-- Modelled from the spec: a zero-inflation index publishing one fixing per
calendar month.  `fixingAtMonth m` is the published fixing at the boundary of
month `m` (months as integers); `daysInMonth` is the calendar length of a
month, an external collaborator fact (spec section 1 treats calendars as
out-of-scope collaborators). -/
structure ZeroInflationIndex where
  fixingAtMonth : ℤ → ℝ
  daysInMonth : ℤ → ℕ

/-- An inflation-side date: a calendar month (as an integer) and a
zero-based day offset within that month. -/
structure InflationDate where
  month : ℤ
  day : ℕ
deriving DecidableEq

/-- Date minus an observation lag of `lag` months (QuantLib `Date - Period`
for a month-denominated period keeps the day within the month). -/
def InflationDate.subMonths (d : InflationDate) (lag : ℤ) : InflationDate :=
  { month := d.month - lag, day := d.day }

/-- Modelled from the spec: `CPI::laggedFixing` (cpicoupon/cpi code not under
src/), spec section 4.6: shift the date back by the lag to obtain the
observation date, then return the single published fixing at the month
boundary (flat) or the linear interpolation between the fixings of the two
calendar months straddling the observation date (linear), weighted by the
day offset within the observation month. -/
noncomputable def CPI.laggedFixing (index : ZeroInflationIndex) (date : InflationDate)
    (observationLag : ℤ) (interpolationType : CPI.InterpolationType) : ℝ :=
  let obs := date.subMonths observationLag
  match interpolationType with
  | .flat => index.fixingAtMonth obs.month
  | .linear =>
    let I0 := index.fixingAtMonth obs.month
    let I1 := index.fixingAtMonth (obs.month + 1)
    I0 + (I1 - I0) * ((obs.day : ℝ) / (index.daysInMonth obs.month : ℝ))

/-- A `ZeroInflationCashFlow` (`zeroinflationcashflow.cpp` lines 28-40): its
own fields plus the inherited `IndexedCashFlow` base and fixing dates. -/
structure ZeroInflationCashFlow where
  notional : ℝ
  zeroInflationIndex : ZeroInflationIndex
  interpolation : CPI.InterpolationType
  startDate : InflationDate
  endDate : InflationDate
  observationLag : ℤ
  paymentDate : InflationDate
  growthOnly : Bool
  baseDate : InflationDate
  fixingDate : InflationDate

/-- The `ZeroInflationCashFlow` constructor (`zeroinflationcashflow.cpp`
lines 28-40): it forwards `startDate - observationLag` and
`endDate - observationLag` to the `IndexedCashFlow` base and stores the
unshifted dates, the lag and the interpolation type in its own fields. -/
def ZeroInflationCashFlow.make (notional : ℝ) (index : ZeroInflationIndex)
    (observationInterpolation : CPI.InterpolationType)
    (startDate endDate : InflationDate) (observationLag : ℤ)
    (paymentDate : InflationDate) (growthOnly : Bool) : ZeroInflationCashFlow :=
  { notional := notional
    zeroInflationIndex := index
    interpolation := observationInterpolation
    startDate := startDate
    endDate := endDate
    observationLag := observationLag
    paymentDate := paymentDate
    growthOnly := growthOnly
    baseDate := startDate.subMonths observationLag
    fixingDate := endDate.subMonths observationLag }

/-- Source method `ZeroInflationCashFlow::baseFixing` (`zeroinflationcashflow.cpp` lines
43-46): `CPI::laggedFixing(index, startDate, observationLag,
interpolation)`. -/
noncomputable def ZeroInflationCashFlow.baseFixing (cf : ZeroInflationCashFlow) : ℝ :=
  CPI.laggedFixing cf.zeroInflationIndex cf.startDate cf.observationLag cf.interpolation

/-- Source method `ZeroInflationCashFlow::indexFixing` (`zeroinflationcashflow.cpp` lines
49-52): `CPI::laggedFixing(index, endDate, observationLag,
interpolation)`. -/
noncomputable def ZeroInflationCashFlow.indexFixing (cf : ZeroInflationCashFlow) : ℝ :=
  CPI.laggedFixing cf.zeroInflationIndex cf.endDate cf.observationLag cf.interpolation

/-- Weekdays, as in `ql/time/weekday.hpp`. -/
inductive Weekday where
  | sunday
  | monday
  | tuesday
  | wednesday
  | thursday
  | friday
  | saturday
deriving DecidableEq

/-- Months, as in `ql/time/date.hpp`. -/
inductive Month where
  | january
  | february
  | march
  | april
  | may
  | june
  | july
  | august
  | september
  | october
  | november
  | december
deriving DecidableEq

/-- The date attributes read by `TARGET::Impl::isBusinessDay`
(`target.cpp` lines 34-42): weekday, day of month, day of year, month and
year.  The function reads nothing else of a date, so a date is embedded as
this record of accessor values. -/
structure TargetDate where
  weekday : Weekday
  dayOfMonth : ℤ
  dayOfYear : ℤ
  month : Month
  year : ℤ

/-- Modelled from the spec: `Calendar::WesternImpl::isWeekend`
(calendar.cpp, not under src/) — a weekend day is a Saturday or a Sunday. -/
def isWeekend (w : Weekday) : Bool :=
  w = Weekday.saturday ∨ w = Weekday.sunday

/-- Source method `TARGET::Impl::isBusinessDay` (`target.cpp` lines 34-64).
`easterMonday` is the day-of-year of Easter Monday for a given year,
supplied by `Calendar::WesternImpl` (calendar.cpp, not under src/), kept
abstract here as a function parameter. -/
def TARGET.isBusinessDay (easterMonday : ℤ → ℤ) (date : TargetDate) : Bool :=
  let w := date.weekday
  let d := date.dayOfMonth
  let dd := date.dayOfYear
  let m := date.month
  let y := date.year
  let em := easterMonday y
  if isWeekend w = true
      ∨ (d = 1 ∧ m = Month.january)
      ∨ (dd = em - 3 ∧ 2000 ≤ y)
      ∨ (dd = em ∧ 2000 ≤ y)
      ∨ (d = 1 ∧ m = Month.may ∧ 2000 ≤ y)
      ∨ (d = 25 ∧ m = Month.december)
      ∨ (d = 26 ∧ m = Month.december ∧ 2000 ≤ y)
      ∨ (d = 31 ∧ m = Month.december ∧ (y = 1998 ∨ y = 1999 ∨ y = 2001)) then
    false
  else
    true

/-- Spec-side reading of claim C10: a date is a business day iff it is not a
Saturday or Sunday and is none of the listed holidays. -/
def targetBusinessDaySpec (easterMonday : ℤ → ℤ) (date : TargetDate) : Prop :=
  (date.weekday ≠ Weekday.saturday ∧ date.weekday ≠ Weekday.sunday)
  ∧ ¬(date.dayOfMonth = 1 ∧ date.month = Month.january)
  ∧ ¬(date.dayOfYear = easterMonday date.year - 3 ∧ 2000 ≤ date.year)
  ∧ ¬(date.dayOfYear = easterMonday date.year ∧ 2000 ≤ date.year)
  ∧ ¬(date.dayOfMonth = 1 ∧ date.month = Month.may ∧ 2000 ≤ date.year)
  ∧ ¬(date.dayOfMonth = 25 ∧ date.month = Month.december)
  ∧ ¬(date.dayOfMonth = 26 ∧ date.month = Month.december ∧ 2000 ≤ date.year)
  ∧ ¬(date.dayOfMonth = 31 ∧ date.month = Month.december
        ∧ (date.year = 1998 ∨ date.year = 1999 ∨ date.year = 2001))

/-- A concrete flat curve with the `Actual365Fixed` day count. -/
def exCurve : YieldTermStructure :=
  { refDate := 0, dayCount := .actual365Fixed, zeroRate := fun _ => 0 }

/-- A concrete flat curve with the `Actual360` day count. -/
def exCurve360 : YieldTermStructure :=
  { refDate := 0, dayCount := .actual360, zeroRate := fun _ => 0 }

/-- A concrete zero volatility surface. -/
def exVol : BlackVolTermStructure :=
  { refDate := 0, blackVol := fun _ _ => 0 }

/-- The end-to-end scenario index of spec section 8: historical fixings 100
at the base date (day 0) and 110 at the fixing date (day 10). -/
def scenarioIndex : EquityIndex :=
  { spot := some 100, interest := some exCurve, dividend := none, today := 10,
    pastFixings := fun d => if d = 0 then some 100 else if d = 10 then some 110 else none }

/-- The end-to-end scenario cash flow of spec section 8: no pricer, base
date 0, fixing date 10. -/
def scenarioCF (n : ℝ) (g : Bool) : EquityCashFlow :=
  { notional := n, index := scenarioIndex, baseDate := 0, fixingDate := 10,
    paymentDate := 20, growthOnly := g }

/-- A concrete initialized pricer state over the scenario index, with zero
correlation. -/
def sExC : PricerState :=
  { quantoCurrencyTermStructure := some exCurve, equityVolatility := some exVol,
    fxVolatility := some exVol, correlation := some 0, index := scenarioIndex,
    baseDate := 0, fixingDate := 10, growthOnlyPayoff := false }

/-- A pricer whose four market-data handles are all empty. -/
def exPricerEmpty : EquityQuantoCashFlowPricer :=
  { id := 1, quantoCurrencyTermStructure := none, equityVolatility := none,
    fxVolatility := none, correlation := none }

/-- An index with no curve bound at all: empty spot, interest and dividend
handles, no historical fixings. -/
def exIndexBare : EquityIndex :=
  { spot := none, interest := none, dividend := none, today := 0,
    pastFixings := fun _ => none }

/-- A cash flow whose fixing date (3) precedes its base date (5), on the
curveless index. -/
def exCFReversed : EquityCashFlow :=
  { notional := 1, index := exIndexBare, baseDate := 5, fixingDate := 3,
    paymentDate := 6, growthOnly := false }

/-- A concrete pricer with identity 1 (the previously set pricer). -/
def exPricerOld : EquityQuantoCashFlowPricer :=
  { id := 1, quantoCurrencyTermStructure := some exCurve,
    equityVolatility := some exVol, fxVolatility := some exVol, correlation := some 0 }

/-- A concrete pricer with identity 2 (the newly set pricer). -/
def exPricerNew : EquityQuantoCashFlowPricer :=
  { id := 2, quantoCurrencyTermStructure := some exCurve,
    equityVolatility := some exVol, fxVolatility := some exVol, correlation := some 0 }

/-- A cash flow that currently has `exPricerOld` set and observes it. -/
def exCFWithOld : EquityCashFlow :=
  { notional := 1, index := scenarioIndex, baseDate := 0, fixingDate := 10,
    paymentDate := 20, growthOnly := false, pricer := some exPricerOld,
    observed := {1}, calculated := true }

/-- A pricer state whose quanto-currency curve uses the `Actual360` day
count while the index's dividend handle is empty. -/
def sC5 : PricerState :=
  { quantoCurrencyTermStructure := some exCurve360, equityVolatility := some exVol,
    fxVolatility := some exVol, correlation := some 0, index := exIndexBare,
    baseDate := 0, fixingDate := 1, growthOnlyPayoff := false }

/-- A concrete zero-inflation index: fixing at month `m` is `m` (as a
real), every month 30 days long. -/
def exInflIndex : ZeroInflationIndex :=
  { fixingAtMonth := fun m => (m : ℝ), daysInMonth := fun _ => 30 }

/-- A concrete zero-inflation cash flow with flat interpolation and a
three-month observation lag. -/
def exInflCF : ZeroInflationCashFlow :=
  ZeroInflationCashFlow.make 1 exInflIndex .flat ⟨24, 5⟩ ⟨36, 5⟩ 3 ⟨37, 0⟩ false

/-- C5 (amended): when the dividend handle is empty,
`configureDividendHandle` substitutes the flat zero-yield curve, whose day
count is the hard-coded `Actual365Fixed` (not the day count of the other
curves), and whose zero rate is identically zero; a non-empty dividend
handle is used unchanged.  `price` feeds this result as the dividend-curve
input of the quanto-adjusted term structure. -/
theorem configureDividendHandle_spec :
    configureDividendHandle none = flatForwardZero
    ∧ flatForwardZero.dayCount = DayCounter.actual365Fixed
    ∧ (∀ t : ℝ, flatForwardZero.zeroRate t = 0)
    ∧ (∀ ts : YieldTermStructure, configureDividendHandle (some ts) = ts) :=
  ⟨rfl, rfl, fun _ => rfl, fun _ => rfl⟩

/-- C5 (counterexample): in a pricer state whose quanto-currency curve (an
"other curve" of the claim) uses the `Actual360` day count and whose index
has an empty dividend handle, the substituted flat curve does NOT carry the
same day-count convention as that other curve — it is `Actual365Fixed`
unconditionally. -/
theorem configureDividendHandle_daycount_counterexample :
    sC5.index.dividend = none
    ∧ sC5.quantoCurrencyTermStructure = some exCurve360
    ∧ (configureDividendHandle sC5.index.dividend).dayCount ≠ exCurve360.dayCount := by
  refine ⟨rfl, rfl, ?_⟩
  simp [sC5, exIndexBare, configureDividendHandle, flatForwardZero, exCurve360]

/-- C6: `initialize` rejects every cash flow whose fixing date precedes its
base date with the range error "Fixing date cannot fall before base date.",
for every pricer (whatever its handles hold) and every such cash flow
(including one whose index has no curve bound at all) — the rejection
happens at initialize time. -/
theorem quanto_initialize_rejects_reversed_dates
    (p : EquityQuantoCashFlowPricer) (cf : EquityCashFlow)
    (h : cf.fixingDate < cf.baseDate) :
    EquityQuantoCashFlowPricer.initialize p cf = .error "Fixing date cannot fall before base date." := by
  unfold EquityQuantoCashFlowPricer.initialize
  rw [if_pos h]

/-- C6 witness: a pricer with all handles empty and a cash flow on a
curveless index with fixing date 3 before base date 5 is rejected at
initialize time with the range error. -/
theorem quanto_initialize_rejects_reversed_dates_witness :
    EquityQuantoCashFlowPricer.initialize exPricerEmpty exCFReversed
      = .error "Fixing date cannot fall before base date." :=
  quanto_initialize_rejects_reversed_dates exPricerEmpty exCFReversed (by norm_num [exCFReversed])

/-- C7: `setPricer p` stores `p`, registers the cash flow as an observer of
`p`, immediately marks the cash flow stale (clears the lazy-object validity
flag so the next `amount()` recomputes), and unregisters it from any
previously set distinct pricer. -/
theorem setPricer_spec (cf : EquityCashFlow) (p : EquityQuantoCashFlowPricer) :
    (cf.setPricer (some p)).pricer = some p
    ∧ p.id ∈ (cf.setPricer (some p)).observed
    ∧ (cf.setPricer (some p)).calculated = false
    ∧ (∀ old : EquityQuantoCashFlowPricer, cf.pricer = some old → old.id ≠ p.id →
        old.id ∉ (cf.setPricer (some p)).observed) := by
  unfold EquityCashFlow.setPricer
  cases hp : cf.pricer with
  | none =>
    refine ⟨rfl, by simp, rfl, ?_⟩
    intro old hold
    exact absurd hold (by simp)
  | some old =>
    refine ⟨rfl, by simp, rfl, ?_⟩
    intro old2 hold2 hne
    injection hold2 with h2
    subst h2
    simp [Finset.mem_insert, Finset.mem_erase, hne]

/-- C7 witness: setting the pricer with identity 2 on a cash flow that
currently holds and observes the pricer with identity 1 stores the new
pricer, registers 2, marks the flow stale, and unregisters 1. -/
theorem setPricer_spec_witness :
    (exCFWithOld.setPricer (some exPricerNew)).pricer = some exPricerNew
    ∧ exPricerNew.id ∈ (exCFWithOld.setPricer (some exPricerNew)).observed
    ∧ (exCFWithOld.setPricer (some exPricerNew)).calculated = false
    ∧ exPricerOld.id ∉ (exCFWithOld.setPricer (some exPricerNew)).observed := by
  have h := setPricer_spec exCFWithOld exPricerNew
  exact ⟨h.1, h.2.1, h.2.2.1, h.2.2.2 exPricerOld rfl (by norm_num [exPricerOld, exPricerNew])⟩

/-- C9: the `ZeroInflationCashFlow` constructor stores `startDate -
observationLag` as the inherited base date and `endDate - observationLag`
as the inherited fixing date, while `baseFixing`/`indexFixing` route the
unshifted `startDate`/`endDate` through `CPI::laggedFixing`, which applies
the lag internally. -/
theorem zeroInflation_constructor_dates (notional : ℝ) (index : ZeroInflationIndex)
    (interp : CPI.InterpolationType) (startDate endDate : InflationDate) (lag : ℤ)
    (paymentDate : InflationDate) (g : Bool) :
    (ZeroInflationCashFlow.make notional index interp startDate endDate lag
        paymentDate g).baseDate = startDate.subMonths lag
    ∧ (ZeroInflationCashFlow.make notional index interp startDate endDate lag
        paymentDate g).fixingDate = endDate.subMonths lag
    ∧ (ZeroInflationCashFlow.make notional index interp startDate endDate lag
        paymentDate g).baseFixing = CPI.laggedFixing index startDate lag interp
    ∧ (ZeroInflationCashFlow.make notional index interp startDate endDate lag
        paymentDate g).indexFixing = CPI.laggedFixing index endDate lag interp :=
  ⟨rfl, rfl, rfl, rfl⟩

/-- C10: `TARGET::Impl::isBusinessDay` returns true exactly when the date is
not a Saturday or Sunday and is none of: January 1; Good Friday (Easter
Monday minus 3 days) from 2000 on; Easter Monday from 2000 on; May 1 from
2000 on; December 25; December 26 from 2000 on; December 31 in 1998, 1999
or 2001. -/
theorem target_isBusinessDay_spec (easterMonday : ℤ → ℤ) (date : TargetDate) :
    TARGET.isBusinessDay easterMonday date = true
      ↔ targetBusinessDaySpec easterMonday date := by
  unfold TARGET.isBusinessDay targetBusinessDaySpec
  dsimp only
  split_ifs with h
  · simp only [Bool.false_eq_true, false_iff]
    simp only [isWeekend, decide_eq_true_eq] at h
    intro hspec
    obtain ⟨hw, h1, h2, h3, h4, h5, h6, h7⟩ := hspec
    rcases h with (hs | hs) | hx | hx | hx | hx | hx | hx | hx
    · exact hw.1 hs
    · exact hw.2 hs
    · exact h1 hx
    · exact h2 hx
    · exact h3 hx
    · exact h4 hx
    · exact h5 hx
    · exact h6 hx
    · exact h7 hx
  · simp only [true_iff]
    simp only [isWeekend, decide_eq_true_eq] at h
    refine ⟨⟨fun hs => h (Or.inl (Or.inl hs)), fun hs => h (Or.inl (Or.inr hs))⟩,
      fun hx => h (Or.inr (Or.inl hx)),
      fun hx => h (Or.inr (Or.inr (Or.inl hx))),
      fun hx => h (Or.inr (Or.inr (Or.inr (Or.inl hx)))),
      fun hx => h (Or.inr (Or.inr (Or.inr (Or.inr (Or.inl hx))))),
      fun hx => h (Or.inr (Or.inr (Or.inr (Or.inr (Or.inr (Or.inl hx)))))),
      fun hx => h (Or.inr (Or.inr (Or.inr (Or.inr (Or.inr (Or.inr (Or.inl hx))))))),
      fun hx => h (Or.inr (Or.inr (Or.inr (Or.inr (Or.inr (Or.inr (Or.inr hx)))))))⟩

/-- C8: `baseFixing` and `indexFixing` both route through `CPI::laggedFixing`
parameterized by the cash flow's own stored observation lag and
interpolation type, `baseFixing` from `startDate` and `indexFixing` from
`endDate`; expanded, flat interpolation yields the published fixing of the
lag-shifted month and linear interpolation the interpolation between the two
straddling months. -/
theorem zeroInflation_fixings_route (cf : ZeroInflationCashFlow) :
    cf.baseFixing
      = CPI.laggedFixing cf.zeroInflationIndex cf.startDate cf.observationLag cf.interpolation
    ∧ cf.indexFixing
      = CPI.laggedFixing cf.zeroInflationIndex cf.endDate cf.observationLag cf.interpolation
    ∧ (cf.interpolation = CPI.InterpolationType.flat →
        cf.baseFixing
          = cf.zeroInflationIndex.fixingAtMonth (cf.startDate.month - cf.observationLag)
        ∧ cf.indexFixing
          = cf.zeroInflationIndex.fixingAtMonth (cf.endDate.month - cf.observationLag))
    ∧ (cf.interpolation = CPI.InterpolationType.linear →
        cf.baseFixing
          = cf.zeroInflationIndex.fixingAtMonth (cf.startDate.month - cf.observationLag)
            + (cf.zeroInflationIndex.fixingAtMonth (cf.startDate.month - cf.observationLag + 1)
                - cf.zeroInflationIndex.fixingAtMonth (cf.startDate.month - cf.observationLag))
              * ((cf.startDate.day : ℝ)
                  / (cf.zeroInflationIndex.daysInMonth (cf.startDate.month - cf.observationLag) : ℝ))
        ∧ cf.indexFixing
          = cf.zeroInflationIndex.fixingAtMonth (cf.endDate.month - cf.observationLag)
            + (cf.zeroInflationIndex.fixingAtMonth (cf.endDate.month - cf.observationLag + 1)
                - cf.zeroInflationIndex.fixingAtMonth (cf.endDate.month - cf.observationLag))
              * ((cf.endDate.day : ℝ)
                  / (cf.zeroInflationIndex.daysInMonth (cf.endDate.month - cf.observationLag) : ℝ))) := by
  refine ⟨rfl, rfl, ?_, ?_⟩ <;>
  · intro hi
    unfold ZeroInflationCashFlow.baseFixing ZeroInflationCashFlow.indexFixing
      CPI.laggedFixing InflationDate.subMonths
    rw [hi]
    exact ⟨rfl, rfl⟩

/-- C8 witness: on the concrete flat-interpolation cash flow with a
three-month lag, `baseFixing` is the published fixing of month 24 - 3 = 21
and `indexFixing` that of month 36 - 3 = 33. -/
theorem zeroInflation_fixings_route_witness :
    exInflCF.baseFixing = exInflIndex.fixingAtMonth 21
    ∧ exInflCF.indexFixing = exInflIndex.fixingAtMonth 33 := by
  have h := (zeroInflation_fixings_route exInflCF).2.2.1 rfl
  refine ⟨?_, ?_⟩
  · rw [h.1]; norm_num [exInflCF, ZeroInflationCashFlow.make]
  · rw [h.2]; norm_num [exInflCF, ZeroInflationCashFlow.make]

/-- C4: with the date-range check passed, `initialize` fails with the
configuration error naming the (first, in source order) missing handle
whenever one of the four market-data handles is empty, and with the
reference-date consistency error whenever the three reference dates do not
all agree; consequently a cash flow whose set pricer has an emptied required
handle fails `amount()` with that configuration error instead of returning
a value. -/
theorem quanto_initialize_error_handling :
    (∀ (p : EquityQuantoCashFlowPricer) (cf : EquityCashFlow),
        cf.baseDate ≤ cf.fixingDate →
        p.quantoCurrencyTermStructure = none →
        EquityQuantoCashFlowPricer.initialize p cf = .error "Quanto currency term structure handle cannot be empty.")
    ∧ (∀ (p : EquityQuantoCashFlowPricer) (cf : EquityCashFlow) (qc : YieldTermStructure),
        cf.baseDate ≤ cf.fixingDate →
        p.quantoCurrencyTermStructure = some qc →
        p.equityVolatility = none →
        EquityQuantoCashFlowPricer.initialize p cf = .error "Equity volatility term structure handle cannot be empty.")
    ∧ (∀ (p : EquityQuantoCashFlowPricer) (cf : EquityCashFlow) (qc : YieldTermStructure)
        (ev : BlackVolTermStructure),
        cf.baseDate ≤ cf.fixingDate →
        p.quantoCurrencyTermStructure = some qc →
        p.equityVolatility = some ev →
        p.fxVolatility = none →
        EquityQuantoCashFlowPricer.initialize p cf = .error "FX volatility term structure handle cannot be empty.")
    ∧ (∀ (p : EquityQuantoCashFlowPricer) (cf : EquityCashFlow) (qc : YieldTermStructure)
        (ev fv : BlackVolTermStructure),
        cf.baseDate ≤ cf.fixingDate →
        p.quantoCurrencyTermStructure = some qc →
        p.equityVolatility = some ev →
        p.fxVolatility = some fv →
        p.correlation = none →
        EquityQuantoCashFlowPricer.initialize p cf = .error "Correlation handle cannot be empty.")
    ∧ (∀ (p : EquityQuantoCashFlowPricer) (cf : EquityCashFlow) (qc : YieldTermStructure)
        (ev fv : BlackVolTermStructure) (c : ℝ),
        cf.baseDate ≤ cf.fixingDate →
        p.quantoCurrencyTermStructure = some qc →
        p.equityVolatility = some ev →
        p.fxVolatility = some fv →
        p.correlation = some c →
        ¬(qc.refDate = ev.refDate ∧ ev.refDate = fv.refDate) →
        EquityQuantoCashFlowPricer.initialize p cf = .error "Quanto currency term structure, equity and FX volatility need to have the same reference date.")
    ∧ (∀ (cf : EquityCashFlow) (p : EquityQuantoCashFlowPricer),
        cf.pricer = some p →
        cf.baseDate ≤ cf.fixingDate →
        p.quantoCurrencyTermStructure = none →
        cf.amount = .error "Quanto currency term structure handle cannot be empty.") := by
  refine ⟨?_, ?_, ?_, ?_, ?_, ?_⟩
  · intro p cf h hqc
    unfold EquityQuantoCashFlowPricer.initialize
    rw [if_neg (not_lt.mpr h), hqc]
  · intro p cf qc h hqc hev
    unfold EquityQuantoCashFlowPricer.initialize
    rw [if_neg (not_lt.mpr h), hqc, hev]
  · intro p cf qc ev h hqc hev hfv
    unfold EquityQuantoCashFlowPricer.initialize
    rw [if_neg (not_lt.mpr h), hqc, hev, hfv]
  · intro p cf qc ev fv h hqc hev hfv hc
    unfold EquityQuantoCashFlowPricer.initialize
    rw [if_neg (not_lt.mpr h), hqc, hev, hfv, hc]
  · intro p cf qc ev fv c h hqc hev hfv hc hne
    unfold EquityQuantoCashFlowPricer.initialize
    rw [if_neg (not_lt.mpr h), hqc, hev, hfv, hc]
    dsimp only
    rw [if_neg hne]
  · intro cf p hp h hqc
    have hinit : EquityQuantoCashFlowPricer.initialize p cf
        = .error "Quanto currency term structure handle cannot be empty." := by
      unfold EquityQuantoCashFlowPricer.initialize
      rw [if_neg (not_lt.mpr h), hqc]
    unfold EquityCashFlow.amount
    rw [hp]
    dsimp only
    rw [hinit]

/-- C4 witness: the pricer with all four handles empty, initialized on the
scenario cash flow (base date 0 before fixing date 10), fails with the
configuration error naming the quanto-currency handle; the same error
surfaces from `amount()` when that pricer is set on the cash flow. -/
theorem quanto_initialize_error_handling_witness :
    EquityQuantoCashFlowPricer.initialize exPricerEmpty (scenarioCF 1 false)
      = .error "Quanto currency term structure handle cannot be empty."
    ∧ ((scenarioCF 1 false).setPricer (some exPricerEmpty)).amount
      = .error "Quanto currency term structure handle cannot be empty." := by
  constructor
  · exact quanto_initialize_error_handling.1 exPricerEmpty (scenarioCF 1 false)
      (by norm_num [scenarioCF]) rfl
  · exact quanto_initialize_error_handling.2.2.2.2.2
      ((scenarioCF 1 false).setPricer (some exPricerEmpty)) exPricerEmpty rfl
      (by norm_num [scenarioCF, EquityCashFlow.setPricer]) rfl

/-- Helper: the scenario index's historical fixing at the base date 0 is
100. -/
theorem scenarioIndex_fixing_base : scenarioIndex.fixing 0 = .ok 100 := by
  unfold scenarioIndex EquityIndex.fixing
  norm_num

/-- Helper: the scenario index's historical fixing at the fixing date 10 is
110. -/
theorem scenarioIndex_fixing_fix : scenarioIndex.fixing 10 = .ok 110 := by
  unfold scenarioIndex EquityIndex.fixing
  norm_num

/-- C2: without a pricer, `amount()` is `notional * (growthOnly ? I1/I0 - 1 :
I1/I0)` from the index's own fixings; with a pricer, `amount()` is
`initialize` followed by `notional * price()`; and in the end-to-end
scenario with fixings 100 and 110 the amount is `notional * 1.10`
(growth-only false) or `notional * 0.10` (growth-only true). -/
theorem equityCashFlow_amount_spec :
    (∀ (cf : EquityCashFlow) (i0 i1 : ℝ), cf.pricer = none →
        cf.index.fixing cf.baseDate = .ok i0 →
        cf.index.fixing cf.fixingDate = .ok i1 →
        cf.amount = .ok (cf.notional * (if cf.growthOnly then i1 / i0 - 1 else i1 / i0)))
    ∧ (∀ (cf : EquityCashFlow) (p : EquityQuantoCashFlowPricer), cf.pricer = some p →
        cf.amount = Except.bind ( EquityQuantoCashFlowPricer.initialize p cf)
          (fun s => (EquityQuantoCashFlowPricer.price s).map (fun pr => cf.notional * pr)))
    ∧ (∀ n : ℝ, (scenarioCF n false).amount = .ok (n * 1.10)
        ∧ (scenarioCF n true).amount = .ok (n * 0.10)) := by
  refine ⟨?_, ?_, ?_⟩
  · intro cf i0 i1 hp h0 h1
    unfold EquityCashFlow.amount EquityCashFlow.indexedAmount
    rw [hp]
    dsimp only
    rw [h0, h1]
  · intro cf p hp
    unfold EquityCashFlow.amount
    rw [hp]
    dsimp only
    cases hin : EquityQuantoCashFlowPricer.initialize p cf with
    | error e => simp [Except.bind]
    | ok s =>
      simp only [Except.bind]
      cases hpr : EquityQuantoCashFlowPricer.price s with
      | error e => simp [Except.map]
      | ok pr => simp [Except.map]
  · intro n
    constructor <;>
    · unfold EquityCashFlow.amount EquityCashFlow.indexedAmount
      dsimp only [scenarioCF]
      rw [scenarioIndex_fixing_base, scenarioIndex_fixing_fix]
      norm_num

/-- C2 witness: the scenario cash flow with notional 2 and growth-only false
pays `2 * (110 / 100)`. -/
theorem equityCashFlow_amount_spec_witness :
    (scenarioCF 2 false).amount = .ok ((2 : ℝ) * (110 / 100)) := by
  have h := equityCashFlow_amount_spec.1 (scenarioCF 2 false) 100 110 rfl
    (by show scenarioIndex.fixing 0 = .ok 100; exact scenarioIndex_fixing_base)
    (by show scenarioIndex.fixing 10 = .ok 110; exact scenarioIndex_fixing_fix)
  simpa [scenarioCF] using h

/-- C1: for a pricer state with all handles bound, `price()` is exactly the
spec-side computation: strike from the original index at the fixing date, a
quanto-adjusted curve from the dividend curve, the quanto-currency curve,
the index's own interest-rate curve, the equity volatility at strike, the
FX volatility and the correlation value, a clone of the index rebound to
(quanto-currency curve, adjusted curve, same spot), and the ratio
`growthOnly ? I1/I0 - 1 : I1/I0` of the clone's fixings. -/
theorem quanto_price_follows_spec (s : PricerState) (qc : YieldTermStructure)
    (ev fv : BlackVolTermStructure) (corr : ℝ) (ir : YieldTermStructure)
    (hqc : s.quantoCurrencyTermStructure = some qc)
    (hev : s.equityVolatility = some ev)
    (hfv : s.fxVolatility = some fv)
    (hcorr : s.correlation = some corr)
    (hir : s.index.interest = some ir) :
    EquityQuantoCashFlowPricer.price s = specQuantoPrice s qc ev fv corr ir := by
  unfold EquityQuantoCashFlowPricer.price specQuantoPrice
  rw [hqc, hev, hfv, hcorr, hir]
  cases hstrike : s.index.fixing s.fixingDate with
  | error e => rfl
  | ok strike =>
    dsimp only
    cases h0 : (s.index.clone (some qc)
        (some (QuantoTermStructure (configureDividendHandle s.index.dividend)
          qc ir ev strike fv 1 corr)) s.index.spot).fixing s.baseDate with
    | error e =>
      cases h1 : (s.index.clone (some qc)
          (some (QuantoTermStructure (configureDividendHandle s.index.dividend)
            qc ir ev strike fv 1 corr)) s.index.spot).fixing s.fixingDate with
      | error e2 => rfl
      | ok I1 => rfl
    | ok I0 =>
      cases h1 : (s.index.clone (some qc)
          (some (QuantoTermStructure (configureDividendHandle s.index.dividend)
            qc ir ev strike fv 1 corr)) s.index.spot).fixing s.fixingDate with
      | error e => rfl
      | ok I1 => rfl

/-- C1 witness: the concrete initialized state `sExC` evaluates `price()`
exactly as the spec-side computation does. -/
theorem quanto_price_follows_spec_witness :
    EquityQuantoCashFlowPricer.price sExC = specQuantoPrice sExC exCurve exVol exVol 0 exCurve :=
  quanto_price_follows_spec sExC exCurve exVol exVol 0 exCurve rfl rfl rfl rfl rfl

/-- Helper: the flat zero-yield curve has discount factor 1 at every
date. -/
theorem flatForwardZero_discount (d : ℤ) : flatForwardZero.discount d = 1 := by
  unfold flatForwardZero YieldTermStructure.discount
  norm_num

/-- Helper: when the quanto drift correction vanishes at a date, the ratio
of the quanto-adjusted discount to the quanto-currency discount equals the
ratio of the dividend discount to the foreign (equity interest-rate)
discount there. -/
theorem quanto_discount_ratio (divTS qc ir : YieldTermStructure)
    (ev fv : BlackVolTermStructure) (strike atm corr : ℝ) (d : ℤ)
    (hz : corr * ev.blackVol (d : ℝ) strike * fv.blackVol (d : ℝ) atm = 0) :
    (QuantoTermStructure divTS qc ir ev strike fv atm corr).discount d / qc.discount d
      = divTS.discount d / ir.discount d := by
  unfold QuantoTermStructure YieldTermStructure.discount
  dsimp only
  rw [hz, add_zero, ← Real.exp_sub, ← Real.exp_sub]
  congr 1
  ring

/-- Helper: when the quanto drift correction vanishes everywhere, the clone
of the index rebound to (quanto-currency curve, quanto-adjusted curve, same
spot) has the same fixings as the original index. -/
theorem cloneQuanto_fixing (idx : EquityIndex) (qc ir : YieldTermStructure)
    (ev fv : BlackVolTermStructure) (strike corr : ℝ) (d : ℤ) (v : ℝ)
    (hir : idx.interest = some ir)
    (hz : ∀ t : ℝ, corr * ev.blackVol t strike * fv.blackVol t 1 = 0)
    (hfix : idx.fixing d = .ok v) :
    (idx.clone (some qc)
        (some (QuantoTermStructure (configureDividendHandle idx.dividend)
          qc ir ev strike fv 1 corr))
        idx.spot).fixing d = .ok v := by
  unfold EquityIndex.fixing at hfix ⊢
  unfold EquityIndex.clone
  dsimp only
  by_cases hd : d ≤ idx.today
  · rw [if_pos hd] at hfix ⊢
    exact hfix
  · rw [if_neg hd] at hfix ⊢
    unfold EquityIndex.forecastFixing at hfix ⊢
    rw [hir] at hfix
    dsimp only
    cases hs : idx.spot with
    | none =>
      rw [hs] at hfix
      exact absurd hfix (by simp)
    | some sp =>
      rw [hs] at hfix
      cases hdv : idx.dividend with
      | some dv =>
        rw [hdv] at hfix
        dsimp only [configureDividendHandle] at hfix ⊢
        simp only [Except.ok.injEq] at hfix ⊢
        rw [← hfix, mul_div_assoc, mul_div_assoc,
          quanto_discount_ratio dv qc ir ev fv strike 1 corr d (hz _)]
      | none =>
        rw [hdv] at hfix
        dsimp only [configureDividendHandle] at hfix ⊢
        simp only [Except.ok.injEq] at hfix ⊢
        rw [← hfix, mul_div_assoc,
          quanto_discount_ratio flatForwardZero qc ir ev fv strike 1 corr d (hz _),
          flatForwardZero_discount, mul_one_div]

/-- C3: for an initialized pricer whose correlation value is zero, or whose
equity volatility surface is identically zero, or whose FX volatility
surface is identically zero, `price()` equals the unadjusted ratio
`I1/I0` of the original index's own fixings (or `I1/I0 - 1` if
growth-only). -/
theorem quanto_price_degrades_to_unadjusted (s : PricerState)
    (qc ir : YieldTermStructure) (ev fv : BlackVolTermStructure) (corr I0 I1 : ℝ)
    (hqc : s.quantoCurrencyTermStructure = some qc)
    (hev : s.equityVolatility = some ev)
    (hfv : s.fxVolatility = some fv)
    (hcorr : s.correlation = some corr)
    (hir : s.index.interest = some ir)
    (hzero : corr = 0 ∨ (∀ t k : ℝ, ev.blackVol t k = 0) ∨ (∀ t k : ℝ, fv.blackVol t k = 0))
    (hI0 : s.index.fixing s.baseDate = .ok I0)
    (hI1 : s.index.fixing s.fixingDate = .ok I1) :
    EquityQuantoCashFlowPricer.price s
      = .ok (if s.growthOnlyPayoff then I1 / I0 - 1 else I1 / I0) := by
  have hz : ∀ t : ℝ, corr * ev.blackVol t I1 * fv.blackVol t 1 = 0 := by
    rcases hzero with h | h | h <;> intro t <;> simp [h]
  unfold EquityQuantoCashFlowPricer.price
  rw [hI1, hqc, hev, hfv, hcorr, hir]
  dsimp only
  rw [cloneQuanto_fixing s.index qc ir ev fv I1 corr s.baseDate I0 hir hz hI0,
    cloneQuanto_fixing s.index qc ir ev fv I1 corr s.fixingDate I1 hir hz hI1]

/-- C3 witness: the concrete state `sExC` (zero correlation, fixings 100
and 110) prices to the unadjusted ratio `110 / 100`. -/
theorem quanto_price_degrades_to_unadjusted_witness :
    EquityQuantoCashFlowPricer.price sExC = .ok ((110 : ℝ) / 100) := by
  have h := quanto_price_degrades_to_unadjusted sExC exCurve exCurve exVol exVol 0 100 110
    rfl rfl rfl rfl rfl (Or.inl rfl)
    (by show scenarioIndex.fixing 0 = .ok 100; exact scenarioIndex_fixing_base)
    (by show scenarioIndex.fixing 10 = .ok 110; exact scenarioIndex_fixing_fix)
  simpa [sExC] using h

end QuantLib
